import Mathlib

/-!
Verification of the resilient Business Central client (src/client.py,
src/azure_auth.py, src/config.py) against its natural-language
specification.  The Python code is shallowly embedded: dictionaries become
association lists, JSON values become an inductive type, the HTTP layer
becomes an explicit oracle function from call index to response, and a
Python exception becomes the error branch of Except.  Time is modelled as
an integer number of seconds.
-/

set_option linter.unusedVariables false

namespace BCWorkshop

/-- JSON values, the shape of parsed HTTP bodies and request payloads. -/
inductive Json where
  | null
  | bool (b : Bool)
  | num (n : Int)
  | str (s : String)
  | arr (xs : List Json)
  | obj (fields : List (String × Json))

/-- Python truthiness of a JSON value: None, False, 0, empty string, empty
list and empty dict are falsy, everything else truthy. -/
def jsonTruthy : Json → Bool
  | .null => false
  | .bool b => b
  | .num n => n != 0
  | .str s => s != ""
  | .arr xs => !xs.isEmpty
  | .obj fs => !fs.isEmpty

/-- Python truthiness of an optional JSON value (None is falsy). -/
def pyTruthyOptJson : Option Json → Bool
  | none => false
  | some j => jsonTruthy j

/-- Python truthiness of an Optional[str] (None and the empty string are
falsy). -/
def pyTruthyOptStr : Option String → Bool
  | none => false
  | some s => s != ""

/-- Rendering of an Optional[str] inside a Python f-string: None prints as
the text None. -/
def pyStrOpt : Option String → String
  | none => "None"
  | some s => s

/-- Lookup in a Python dict modelled as an insertion-ordered association
list. -/
def dictGet? (m : List (String × Json)) (k : String) : Option Json :=
  match m with
  | [] => none
  | (k', v) :: rest => if k' = k then some v else dictGet? rest k

/-- Python dict assignment: replace in place when the key exists (keeping
its position), otherwise append, as insertion-ordered dicts do. -/
def dictSet (m : List (String × Json)) (k : String) (v : Json) : List (String × Json) :=
  match m with
  | [] => [(k, v)]
  | (k', v') :: rest => if k' = k then (k, v) :: rest else (k', v') :: dictSet rest k v

/-- The prefix of a character list before the first occurrence of the
pattern, the whole list when the pattern does not occur.  This is the
first component of a Python str.split on a non-empty separator. -/
def prefixBeforeFirst (pat : List Char) : List Char → List Char
  | [] => []
  | c :: rest =>
    if pat.isPrefixOf (c :: rest) then [] else c :: prefixBeforeFirst pat rest

/-- Substring test on character lists, matching the Python in operator on
strings. -/
def hasSubstr (pat : List Char) : List Char → Bool
  | [] => pat.isEmpty
  | c :: rest => pat.isPrefixOf (c :: rest) || hasSubstr pat rest

/-- s.text truncated to its first 200 characters, the excerpt the executor
logs on a terminal failure (resp.text with slice [:200]). -/
def strTake200 (s : String) : String :=
  (s.toList.take 200).asString

/-- Python subscription j[k] with a string key: dict lookup (KeyError when
absent), TypeError on lists and strings, KeyError on other dict-less
values would be TypeError as well. -/
def pySubscriptStr (j : Json) (k : String) : Except String Json :=
  match j with
  | .obj fs =>
    match dictGet? fs k with
    | some v => .ok v
    | none => .error "KeyError"
  | _ => .error "TypeError"

/-- The Python membership test (k in j): key membership for dicts, element
equality for lists, substring test for strings, TypeError otherwise. -/
def pyContains (j : Json) (k : String) : Except String Bool :=
  match j with
  | .obj fs => .ok (fs.any (fun p => p.1 == k))
  | .arr xs =>
    .ok (xs.any (fun x =>
      match x with
      | .str s => s == k
      | _ => false))
  | .str s => .ok (hasSubstr k.toList s.toList)
  | _ => .error "TypeError"

/-- Python subscription j[0]: first element of a list, first character of
a string, IndexError when empty, KeyError on dicts, TypeError otherwise. -/
def pyIndexZero : Json → Except String Json
  | .arr (x :: _) => .ok x
  | .arr [] => .error "IndexError"
  | .str s =>
    match s.toList with
    | c :: _ => .ok (.str (String.singleton c))
    | [] => .error "IndexError"
  | .obj _ => .error "KeyError"
  | _ => .error "TypeError"

/-! The token manager (src/azure_auth.py). -/

/-- The azure_ad section of config.py: AzureADConfig, every field an
Optional[str] (None when the environment variable is unset). -/
structure AzureADConfig where
  tenant_id : Option String
  client_id : Option String
  client_secret : Option String
  authority : Option String

/-- The mutable state of AzureTokenManager: the cached token value
(self.token, assigned from the token response, None initially or after
invalidation) and the absolute expiry instant (self.expires). -/
structure TokenState where
  token : Option Json
  expires : Option Int

/-- The check guarding get_token in azure_auth.py: not client_id or not
client_secret or not tenant_id, negated. -/
def credsConfigured (cfg : AzureADConfig) : Bool :=
  pyTruthyOptStr cfg.client_id && pyTruthyOptStr cfg.client_secret &&
    pyTruthyOptStr cfg.tenant_id

/-- An HTTP response as the client observes it: status code, resp.text,
and resp.json() as an optional value (none meaning the body is not valid
JSON, where Python raises ValueError). -/
structure HttpResponse where
  status : Nat
  body : String
  json : Option Json

/-- The result of one httpx call: a response, or a raised network
exception carrying its message. -/
inductive NetResult where
  | ok (r : HttpResponse)
  | exn (e : String)

namespace AzureTokenManager

/-- AzureTokenManager._valid: the token and expiry are set and the current
time is strictly before the expiry. -/
def valid (st : TokenState) (now : Int) : Bool :=
  match st.token, st.expires with
  | some _, some e => decide (now < e)
  | _, _ => false

/-- The expires_in extraction in _fetch: j.get with key expires_in and
default 3600; a value of a non-numeric type would make timedelta raise. -/
def expiresInOf (fs : List (String × Json)) : Except String Int :=
  match dictGet? fs "expires_in" with
  | none => .ok 3600
  | some (.num n) => .ok n
  | some _ => .error "TypeError"

/-- AzureTokenManager._fetch: POST to the token endpoint (the NetResult
argument is the outcome of that call).  On HTTP 200 the body is parsed
(raising on malformed JSON), access_token is cached and the expiry is set
to now plus expires_in; any non-200 status logs and yields None; a network
exception propagates, there is no try/except in this method. -/
def fetch (cfg : AzureADConfig) (st : TokenState) (now : Int) (resp : NetResult) :
    Except String (Option Json) × TokenState :=
  match resp with
  | .exn e => (.error e, st)
  | .ok r =>
    if r.status = 200 then
      match r.json with
      | none => (.error "JSONDecodeError", st)
      | some j =>
        match j with
        | .obj fs =>
          match dictGet? fs "access_token" with
          | none => (.error "KeyError", st)
          | some tok =>
            match expiresInOf fs with
            | .error e => (.error e, { token := some tok, expires := st.expires })
            | .ok secs => (.ok (some tok), { token := some tok, expires := some (now + secs) })
        | _ => (.error "TypeError", st)
    else
      (.ok none, st)

/-- AzureTokenManager.get_token: None without any network call when the
client identity is not fully configured, the cached token while valid,
otherwise a fresh fetch.  The Bool records whether the token endpoint was
actually called. -/
def get_token (cfg : AzureADConfig) (st : TokenState) (now : Int) (tnet : NetResult) :
    Except String (Option Json) × TokenState × Bool :=
  if !(credsConfigured cfg) then (.ok none, st, false)
  else if valid st now then (.ok st.token, st, false)
  else
    match fetch cfg st now tnet with
    | (res, st') => (res, st', true)

end AzureTokenManager

/-! The URL builder (APIEndpointBuilder in src/client.py).  base_url and
company_id come from config.bc and are Optional[str]: both are None when
no tenant is configured (config.py builds base_url only when tenant_id is
present). -/

namespace APIEndpointBuilder

/-- The first component of base_url.split on the separator /api/v2.0, the
prefix before its first occurrence. -/
def baseWithoutVersion (base : String) : String :=
  (prefixBeforeFirst "/api/v2.0".toList base.toList).asString

/-- APIEndpointBuilder.build_standard_url: an f-string, so a None base or
company renders as the text None rather than raising. -/
def build_standard_url (base_url company_id : Option String) (endpoint : String) : String :=
  pyStrOpt base_url ++ "/companies(" ++ pyStrOpt company_id ++ ")/" ++ endpoint

/-- APIEndpointBuilder.build_custom_url: self.base_url.split is attribute
access on base_url, so a None base_url raises AttributeError; otherwise
the base is truncated at the first /api/v2.0 and the custom coordinates
are appended, with the company segment when use_company is true. -/
def build_custom_url (base_url company_id : Option String)
    (publisher app_group version endpoint : String) (use_company : Bool) :
    Except String String :=
  match base_url with
  | none => .error "AttributeError"
  | some base =>
    let custom_path :=
      baseWithoutVersion base ++ "/api/" ++ publisher ++ "/" ++ app_group ++ "/" ++ version
    if use_company then
      .ok (custom_path ++ "/companies(" ++ pyStrOpt company_id ++ ")/" ++ endpoint)
    else
      .ok (custom_path ++ "/" ++ endpoint)

end APIEndpointBuilder

/-! The resilient request executor (BusinessCentralClient._request). -/

/-- Observable events of one client operation, in order: a POST to the
Azure token endpoint (inside AzureTokenManager._fetch), an HTTP call to
the Business Central API with its request descriptor, the executor
clearing the cached token after a 401, and a backoff sleep in seconds. -/
inductive Ev where
  | tokenEndpointCall
  | httpCall (method url : String) (params : Option (List (String × Json))) (data : Option Json)
  | invalidate
  | sleep (secs : Nat)

/-- Test for an HTTP call event. -/
def Ev.isHttpCall : Ev → Bool
  | .httpCall _ _ _ _ => true
  | _ => false

/-- Number of HTTP calls (attempts actually issued) in a trace. -/
def callsOf (evs : List Ev) : Nat :=
  (evs.filter Ev.isHttpCall).length

/-- The backoff sleep durations of a trace, in order. -/
def sleepsOf (evs : List Ev) : List Nat :=
  evs.filterMap fun e =>
    match e with
    | .sleep n => some n
    | _ => none

/-- Number of POSTs to the Azure token endpoint in a trace. -/
def tokenCallsOf (evs : List Ev) : Nat :=
  (evs.filter fun e =>
    match e with
    | .tokenEndpointCall => true
    | _ => false).length

/-- The classified result of _request.  noCredential, exhausted and
exhaustedNoResponse all return None in Python; exhausted additionally
records the last observed status and the 200-character body excerpt that
line 146 of client.py logs at error level. -/
inductive Outcome where
  | noCredential
  | noContent
  | success (j : Json)
  | successRaw (body : String)
  | exhausted (lastStatus : Nat) (excerpt : String)
  | exhaustedNoResponse

/-- The Python return value of _request for each outcome: a 204 yields
the success marker dict, an unparseable 2xx body yields the raw-text
fallback dict, and every failure path returns None. -/
def Outcome.toPy : Outcome → Option Json
  | .noCredential => none
  | .noContent => some (.obj [("success", .bool true)])
  | .success j => some j
  | .successRaw body => some (.obj [("success", .bool true), ("raw_response", .str body)])
  | .exhausted _ _ => none
  | .exhaustedNoResponse => none

/-- Whether an executor result is a parsed-JSON success. -/
def outcomeIsSuccess : Except String Outcome → Bool
  | .ok (.success _) => true
  | _ => false

/-- Whether a computation returned a value rather than raising. -/
def exceptOk {α : Type} : Except String α → Bool
  | .ok _ => true
  | .error _ => false

/-- The outcome of falling out of the retry loop: client.py logs the last
response and returns None (exhaustedNoResponse only when no response was
ever received). -/
def exhaustOutcome : Option HttpResponse → Outcome
  | some r => .exhausted r.status (strTake200 r.body)
  | none => .exhaustedNoResponse

/-- The world outside the client: the Azure AD configuration, the BC base
URL and company id (config.bc), plus oracles giving the response of the
k-th token-endpoint POST, the response of the k-th Business Central HTTP
call, and the clock at the k-th Business Central call. -/
structure Env where
  cfg : AzureADConfig
  base_url : Option String
  company_id : Option String
  tokenNet : Nat → NetResult
  net : Nat → NetResult
  now : Nat → Int

/-- Mutable state threaded through the client: the token manager cache
and how many token-endpoint POSTs and HTTP calls have happened so far. -/
structure World where
  tm : TokenState
  tokIdx : Nat
  netIdx : Nat

/-- The retry loop of BusinessCentralClient._request, one constructor per
remaining iteration of for i in range(self.retries).  Each iteration gets
a token (returning None - noCredential - when it is falsy), issues the
HTTP call, returns on 200/201/204, clears the cached token and retries on
401, sleeps 2 to the power i and retries on a 5xx, and breaks out (falling
through to the error log and a None return) on any other status.  A raised
exception is the error branch and propagates. -/
def reqLoop (env : Env) (method url : String) (params : Option (List (String × Json)))
    (data : Option Json) : Nat → World → Option HttpResponse → Nat →
    Except String Outcome × World × List Ev
  | 0, w, lastResp, _ => (.ok (exhaustOutcome lastResp), w, [])
  | fuel + 1, w, lastResp, i =>
    let g := AzureTokenManager.get_token env.cfg w.tm (env.now w.netIdx) (env.tokenNet w.tokIdx)
    let st2 := g.2.1
    let fevs : List Ev := bif g.2.2 then [Ev.tokenEndpointCall] else []
    let tokIdx2 : Nat := bif g.2.2 then w.tokIdx + 1 else w.tokIdx
    match g.1 with
    | .error e => (.error e, ⟨st2, tokIdx2, w.netIdx⟩, fevs)
    | .ok tok =>
      if pyTruthyOptJson tok = false then
        (.ok .noCredential, ⟨st2, tokIdx2, w.netIdx⟩, fevs)
      else
        match env.net w.netIdx with
        | .exn e =>
          (.error e, ⟨st2, tokIdx2, w.netIdx + 1⟩, fevs ++ [Ev.httpCall method url params data])
        | .ok r =>
          let evs := fevs ++ [Ev.httpCall method url params data]
          if r.status = 200 ∨ r.status = 201 ∨ r.status = 204 then
            if r.status = 204 then (.ok .noContent, ⟨st2, tokIdx2, w.netIdx + 1⟩, evs)
            else
              match r.json with
              | some j => (.ok (.success j), ⟨st2, tokIdx2, w.netIdx + 1⟩, evs)
              | none => (.ok (.successRaw r.body), ⟨st2, tokIdx2, w.netIdx + 1⟩, evs)
          else if r.status = 401 then
            let rest := reqLoop env method url params data fuel
              ⟨⟨none, st2.expires⟩, tokIdx2, w.netIdx + 1⟩ (some r) (i + 1)
            (rest.1, rest.2.1, evs ++ Ev.invalidate :: rest.2.2)
          else if 500 ≤ r.status then
            let rest := reqLoop env method url params data fuel
              ⟨st2, tokIdx2, w.netIdx + 1⟩ (some r) (i + 1)
            (rest.1, rest.2.1, evs ++ Ev.sleep (2 ^ i) :: rest.2.2)
          else
            (.ok (exhaustOutcome (some r)), ⟨st2, tokIdx2, w.netIdx + 1⟩, evs)

namespace BusinessCentralClient

/-- BusinessCentralClient._request: resolve the URL (standard company
path unless is_full_url) and run the retry loop with the retry budget
self.retries = 3. -/
def request (env : Env) (w : World) (method path_or_url : String)
    (params : Option (List (String × Json))) (data : Option Json) (is_full_url : Bool) :
    Except String Outcome × World × List Ev :=
  let url :=
    bif is_full_url then path_or_url
    else APIEndpointBuilder.build_standard_url env.base_url env.company_id path_or_url
  reqLoop env method url params data 3 w none 0

end BusinessCentralClient

/-! Domain operations (the public methods of BusinessCentralClient).
Each is a thin composition of the URL builder, the executor and a
response-unwrapping step, mirrored statement by statement. -/

/-- The unwrapping res.get of key value with default the empty list, used
by every list operation as (res.get(...) if res else []): a falsy result
yields the empty list, a truthy non-dict result would raise
AttributeError. -/
def valueOrEmptyList (res : Option Json) : Except String Json :=
  match res with
  | none => .ok (.arr [])
  | some j =>
    if jsonTruthy j then
      match j with
      | .obj fs => .ok ((dictGet? fs "value").getD (.arr []))
      | _ => .error "AttributeError"
    else .ok (.arr [])

/-- The unwrapping used by the filtered single-record lookups: when the
response is truthy, contains the key value and that entry is truthy,
return its first element, otherwise None. -/
def firstOfValue (res : Option Json) : Except String (Option Json) :=
  match res with
  | none => .ok none
  | some j =>
    if jsonTruthy j then
      match pyContains j "value" with
      | .error e => .error e
      | .ok false => .ok none
      | .ok true =>
        match pySubscriptStr j "value" with
        | .error e => .error e
        | .ok v =>
          if jsonTruthy v then
            match pyIndexZero v with
            | .error e => .error e
            | .ok x => .ok (some x)
          else .ok none
    else .ok none

/-- The optional filters dict accepted by get_deliveries; a missing key
reads as None. -/
structure DeliveryFilters where
  customer_id : Option String := none
  status : Option String := none
  date_from : Option String := none
  date_to : Option String := none

/-- The params.get of key filter with default the empty string used while
get_deliveries builds its filter; the function only ever stores string
values under that key. -/
def getFilterStr (params : List (String × Json)) : String :=
  match dictGet? params "$filter" with
  | some (.str s) => s
  | _ => ""

/-- The query-parameter dict built by get_deliveries: a top entry, then a
customerId clause, a status clause conjoined to any existing filter, and
the date clauses joined with and and wrapped in parentheses when merged
after an existing clause. -/
def deliveriesParams (filters : Option DeliveryFilters) (top : Int) : List (String × Json) :=
  let params : List (String × Json) := [("$top", .num top)]
  match filters with
  | none => params
  | some f =>
    let params :=
      if pyTruthyOptStr f.customer_id then
        dictSet params "$filter" (.str ("customerId eq \x27" ++ f.customer_id.getD "" ++ "\x27"))
      else params
    let params :=
      if pyTruthyOptStr f.status then
        let filter_expr := getFilterStr params
        let filter_expr :=
          if filter_expr != "" then
            filter_expr ++ " and status eq \x27" ++ f.status.getD "" ++ "\x27"
          else "status eq \x27" ++ f.status.getD "" ++ "\x27"
        dictSet params "$filter" (.str filter_expr)
      else params
    let params :=
      if pyTruthyOptStr f.date_from || pyTruthyOptStr f.date_to then
        let date_filter : List String :=
          (if pyTruthyOptStr f.date_from then ["deliveryDate ge " ++ f.date_from.getD ""] else [])
            ++ (if pyTruthyOptStr f.date_to then ["deliveryDate le " ++ f.date_to.getD ""] else [])
        if !date_filter.isEmpty then
          let filter_expr := getFilterStr params
          let date_expr := String.intercalate " and " date_filter
          let filter_expr :=
            if filter_expr != "" then filter_expr ++ " and (" ++ date_expr ++ ")"
            else date_expr
          dictSet params "$filter" (.str filter_expr)
        else params
      else params
    params

/-- Whether get_delivery treats the identifier as a GUID: length greater
than 20 and containing a hyphen. -/
def isGuidLike (delivery_id : String) : Bool :=
  decide (20 < delivery_id.length) && delivery_id.toList.contains '-'

namespace BusinessCentralClient

/-- get_customers: list customers, unwrapping the value array and
degrading to the empty list. -/
def get_customers (env : Env) (w : World) (top : Int) :
    Except String Json × World × List Ev :=
  match request env w "GET" "customers" (some [("$top", .num top)]) none false with
  | (.error e, w', evs) => (.error e, w', evs)
  | (.ok oc, w', evs) => (valueOrEmptyList oc.toPy, w', evs)

/-- get_customer: single customer by id, passing the executor result
through (None on any failure). -/
def get_customer (env : Env) (w : World) (cid : String) :
    Except String (Option Json) × World × List Ev :=
  match request env w "GET" ("customers(" ++ cid ++ ")") none none false with
  | (.error e, w', evs) => (.error e, w', evs)
  | (.ok oc, w', evs) => (.ok oc.toPy, w', evs)

/-- get_customer_by_id: alias for get_customer. -/
def get_customer_by_id (env : Env) (w : World) (customer_id : String) :
    Except String (Option Json) × World × List Ev :=
  get_customer env w customer_id

/-- get_items: list items, unwrapping the value array. -/
def get_items (env : Env) (w : World) (top : Int) :
    Except String Json × World × List Ev :=
  match request env w "GET" "items" (some [("$top", .num top)]) none false with
  | (.error e, w', evs) => (.error e, w', evs)
  | (.ok oc, w', evs) => (valueOrEmptyList oc.toPy, w', evs)

/-- get_item_by_number: direct keyed access first, then a filtered list
query with limit 1 when the direct result is falsy. -/
def get_item_by_number (env : Env) (w : World) (item_no : String) :
    Except String (Option Json) × World × List Ev :=
  match request env w "GET" ("items(" ++ item_no ++ ")") none none false with
  | (.error e, w1, evs1) => (.error e, w1, evs1)
  | (.ok oc1, w1, evs1) =>
    if pyTruthyOptJson oc1.toPy then (.ok oc1.toPy, w1, evs1)
    else
      match request env w1 "GET" "items"
          (some [("$filter", .str ("number eq \x27" ++ item_no ++ "\x27")), ("$top", .num 1)])
          none false with
      | (.error e, w2, evs2) => (.error e, w2, evs1 ++ evs2)
      | (.ok oc2, w2, evs2) => (firstOfValue oc2.toPy, w2, evs1 ++ evs2)

/-- get_orders: list sales orders, unwrapping the value array. -/
def get_orders (env : Env) (w : World) (top : Int) :
    Except String Json × World × List Ev :=
  match request env w "GET" "salesOrders" (some [("$top", .num top)]) none false with
  | (.error e, w', evs) => (.error e, w', evs)
  | (.ok oc, w', evs) => (valueOrEmptyList oc.toPy, w', evs)

/-- get_sales_orders: list sales orders with an optional raw filter
string. -/
def get_sales_orders (env : Env) (w : World) (filter_query : String) (top : Int) :
    Except String Json × World × List Ev :=
  let params : List (String × Json) := [("$top", .num top)]
  let params := if filter_query != "" then dictSet params "$filter" (.str filter_query) else params
  match request env w "GET" "salesOrders" (some params) none false with
  | (.error e, w', evs) => (.error e, w', evs)
  | (.ok oc, w', evs) => (valueOrEmptyList oc.toPy, w', evs)

/-- create_customer: POST the payload through unchanged. -/
def create_customer (env : Env) (w : World) (data : Json) :
    Except String (Option Json) × World × List Ev :=
  match request env w "POST" "customers" none (some data) false with
  | (.error e, w', evs) => (.error e, w', evs)
  | (.ok oc, w', evs) => (.ok oc.toPy, w', evs)

/-- get_currency_exchange_rates: list exchange rates, optionally filtered
by currency code. -/
def get_currency_exchange_rates (env : Env) (w : World) (currency_code : Option String)
    (top : Int) : Except String Json × World × List Ev :=
  let params : List (String × Json) := [("$top", .num top)]
  let params :=
    match currency_code with
    | some c =>
      if c != "" then dictSet params "$filter" (.str ("currencyCode eq \x27" ++ c ++ "\x27"))
      else params
    | none => params
  match request env w "GET" "currencyExchangeRates" (some params) none false with
  | (.error e, w', evs) => (.error e, w', evs)
  | (.ok oc, w', evs) => (valueOrEmptyList oc.toPy, w', evs)

/-- get_deliveries: custom-API delivery list with the incrementally built
conjunctive filter. -/
def get_deliveries (env : Env) (w : World) (filters : Option DeliveryFilters) (top : Int) :
    Except String Json × World × List Ev :=
  let params := deliveriesParams filters top
  match APIEndpointBuilder.build_custom_url env.base_url env.company_id
      "techSphereDynamics" "delivery" "v1.0" "deliveries" true with
  | .error e => (.error e, w, [])
  | .ok url =>
    match request env w "GET" url (some params) none true with
    | (.error e, w', evs) => (.error e, w', evs)
    | (.ok oc, w', evs) => (valueOrEmptyList oc.toPy, w', evs)

/-- get_delivery: direct keyed access without quotes for GUID-shaped
identifiers, otherwise a filtered list query on the no field with limit 1
returning the first element of the value array or None. -/
def get_delivery (env : Env) (w : World) (delivery_id : String) :
    Except String (Option Json) × World × List Ev :=
  if isGuidLike delivery_id then
    match APIEndpointBuilder.build_custom_url env.base_url env.company_id
        "techSphereDynamics" "delivery" "v1.0" ("deliveries(" ++ delivery_id ++ ")") true with
    | .error e => (.error e, w, [])
    | .ok url =>
      match request env w "GET" url none none true with
      | (.error e, w', evs) => (.error e, w', evs)
      | (.ok oc, w', evs) => (.ok oc.toPy, w', evs)
  else
    match APIEndpointBuilder.build_custom_url env.base_url env.company_id
        "techSphereDynamics" "delivery" "v1.0" "deliveries" true with
    | .error e => (.error e, w, [])
    | .ok url =>
      match request env w "GET" url
          (some [("$filter", .str ("no eq \x27" ++ delivery_id ++ "\x27")), ("$top", .num 1)])
          none true with
      | (.error e, w', evs) => (.error e, w', evs)
      | (.ok oc, w', evs) => (firstOfValue oc.toPy, w', evs)

/-- The PATCH payload of update_delivery_status: the new status, a null
lastUpdateDate for the server to assign, and the notes only when truthy. -/
def updateDeliveryData (status notes : String) : List (String × Json) :=
  let data : List (String × Json) := [("status", .str status), ("lastUpdateDate", .null)]
  if notes != "" then dictSet data "notes" (.str notes) else data

/-- update_delivery_status: PATCH to the deliveries resource, with the
identifier always wrapped in single quotes in the key segment. -/
def update_delivery_status (env : Env) (w : World) (delivery_id status notes : String) :
    Except String (Option Json) × World × List Ev :=
  let data := updateDeliveryData status notes
  match APIEndpointBuilder.build_custom_url env.base_url env.company_id
      "techSphereDynamics" "delivery" "v1.0"
      ("deliveries(\x27" ++ delivery_id ++ "\x27)") true with
  | .error e => (.error e, w, [])
  | .ok url =>
    match request env w "PATCH" url none (some (.obj data)) true with
    | (.error e, w', evs) => (.error e, w', evs)
    | (.ok oc, w', evs) => (.ok oc.toPy, w', evs)

/-- get_delivery_routes: route list for a date range, optionally narrowed
to one driver. -/
def get_delivery_routes (env : Env) (w : World) (date_from date_to : String)
    (driver_id : Option String) : Except String Json × World × List Ev :=
  let fs := "routeDate ge " ++ date_from ++ " and routeDate le " ++ date_to
  let fs :=
    match driver_id with
    | some d => if d != "" then fs ++ " and driverId eq \x27" ++ d ++ "\x27" else fs
    | none => fs
  match APIEndpointBuilder.build_custom_url env.base_url env.company_id
      "techSphereDynamics" "delivery" "v1.0" "routes" true with
  | .error e => (.error e, w, [])
  | .ok url =>
    match request env w "GET" url (some [("$filter", .str fs)]) none true with
    | (.error e, w', evs) => (.error e, w', evs)
    | (.ok oc, w', evs) => (valueOrEmptyList oc.toPy, w', evs)

/-- optimize_route: passthrough POST of the route payload. -/
def optimize_route (env : Env) (w : World) (route_data : Json) :
    Except String (Option Json) × World × List Ev :=
  match APIEndpointBuilder.build_custom_url env.base_url env.company_id
      "techSphereDynamics" "delivery" "v1.0" "routes/optimize" true with
  | .error e => (.error e, w, [])
  | .ok url =>
    match request env w "POST" url none (some route_data) true with
    | (.error e, w', evs) => (.error e, w', evs)
    | (.ok oc, w', evs) => (.ok oc.toPy, w', evs)

/-- get_inventory_status: inventory list, optionally filtered by
warehouse. -/
def get_inventory_status (env : Env) (w : World) (warehouse_id : Option String) :
    Except String Json × World × List Ev :=
  let params : List (String × Json) :=
    match warehouse_id with
    | some wid =>
      if wid != "" then [("$filter", .str ("warehouseId eq \x27" ++ wid ++ "\x27"))] else []
    | none => []
  match APIEndpointBuilder.build_custom_url env.base_url env.company_id
      "techSphereDynamics" "delivery" "v1.0" "inventory" true with
  | .error e => (.error e, w, [])
  | .ok url =>
    match request env w "GET" url (some params) none true with
    | (.error e, w', evs) => (.error e, w', evs)
    | (.ok oc, w', evs) => (valueOrEmptyList oc.toPy, w', evs)

end BusinessCentralClient

/-! Derived notions and concrete scenarios used by the theorems below. -/

/-- The trace of a run of the retry loop that hits n consecutive 5xx
responses (a call then a backoff sleep of 2 to the power of the attempt
index, starting at i0) and then a success call. -/
def chainTrace (m u : String) (p : Option (List (String × Json))) (d : Option Json) :
    Nat → Nat → List Ev
  | _, 0 => [Ev.httpCall m u p d]
  | i0, n + 1 => Ev.httpCall m u p d :: Ev.sleep (2 ^ i0) :: chainTrace m u p d (i0 + 1) n

/-- A token-endpoint call result that raises nothing and whose 200
responses are well-formed: parseable JSON object with an access_token and
a numeric or absent expires_in.  Under this assumption credential
acquisition cannot raise. -/
def benignTokenResp : NetResult → Prop
  | .exn _ => False
  | .ok r =>
    r.status = 200 →
      ∃ fs tok, r.json = some (.obj fs) ∧ dictGet? fs "access_token" = some tok ∧
        (dictGet? fs "expires_in" = none ∨ ∃ n, dictGet? fs "expires_in" = some (Json.num n))

/-- A fully configured Azure AD identity. -/
def cfgFull : AzureADConfig :=
  ⟨some "T", some "c", some "s", some "https://login.microsoftonline.com/T"⟩

/-- The unconfigured identity: every environment variable unset, exactly
what config.py produces in mock mode; bc.base_url is then also None. -/
def offCfg : AzureADConfig := ⟨none, none, none, none⟩

/-- A token-manager state holding a valid, truthy cached token that
expires at time 1000. -/
def freshW : World := ⟨⟨some (.str "tk"), some 1000⟩, 0, 0⟩

/-- A 500 response with body oops. -/
def resp500 : HttpResponse := ⟨500, "oops", none⟩

/-- A 200 response whose JSON body is an object with an empty value
array. -/
def resp200 : HttpResponse := ⟨200, "{}", some (.obj [("value", .arr [])])⟩

/-- Scenario for claim C1: the clock is frozen at 0, the cached token is
valid throughout, and the Business Central API answers 500 to the first
three calls and 200 afterwards. -/
def env3x500 : Env where
  cfg := cfgFull
  base_url := some "https://x/v2.0/T/prod/api/v2.0"
  company_id := some "C"
  tokenNet := fun _ => .exn "unused"
  net := fun k => if k < 3 then .ok resp500 else .ok resp200
  now := fun _ => 0

/-- Scenario with two 500 responses followed by 200s. -/
def env2x500 : Env :=
  { env3x500 with net := fun k => if k < 2 then .ok resp500 else .ok resp200 }

/-- Scenario in which the very first token-endpoint POST raises a
connection timeout. -/
def envTokenExn : Env :=
  { env3x500 with tokenNet := fun _ => .exn "httpx.ConnectTimeout" }

/-- Scenario in which the Business Central call itself raises a read
timeout. -/
def envNetExn : Env :=
  { env3x500 with net := fun _ => .exn "httpx.ReadTimeout" }

/-- Scenario with a well-formed but rejecting world: the token endpoint
answers 400 and the API answers 404; nothing raises. -/
def envBenign : Env :=
  { env3x500 with
    tokenNet := fun _ => .ok ⟨400, "bad request", none⟩
    net := fun _ => .ok ⟨404, "not found", none⟩ }

/-- The fully unconfigured environment: no identity, hence (per config.py)
no base URL and no company id. -/
def offEnv : Env :=
  { env3x500 with cfg := offCfg, base_url := none, company_id := none }

/-- A partially configured environment: tenant present (so the base URL
is derivable) but the client secret missing, hence credentials are not
fully configured. -/
def partialEnv : Env :=
  { env3x500 with cfg := ⟨some "T", some "c", none, some "a"⟩ }

/-- Scenario whose first API answer is a 200 carrying a one-element value
array. -/
def envVal : Env :=
  { env3x500 with
    net := fun _ => .ok ⟨200, "{}", some (.obj [("value", .arr [Json.str "D1"])])⟩ }

/-- Scenario whose first API answer is 401 and whose token endpoint then
returns a fresh token. -/
def env401 : Env :=
  { env3x500 with
    tokenNet := fun _ =>
      .ok ⟨200, "{}", some (.obj [("access_token", .str "tk2"), ("expires_in", .num 3600)])⟩
    net := fun k => if k = 0 then .ok ⟨401, "unauthorized", none⟩ else .ok resp200 }

/-! Helper lemmas about the executor. -/

/-- With configured credentials and a currently valid cache, get_token
returns the cached token without touching the network. -/
theorem get_token_cached (cfg : AzureADConfig) (st : TokenState) (now : Int) (tnet : NetResult)
    (hc : credsConfigured cfg = true) (hv : AzureTokenManager.valid st now = true) :
    AzureTokenManager.get_token cfg st now tnet = (.ok st.token, st, false) := by
  simp [AzureTokenManager.get_token, hc, hv]

/-- One unfolding of the retry loop on a 200 response with parseable
JSON, under a cached valid truthy token: the loop returns that body as a
success after exactly one HTTP call. -/
theorem reqLoop_step_200 (env : Env) (m u : String) (p : Option (List (String × Json)))
    (d : Option Json) (st : TokenState) (tIdx nIdx : Nat) (lr : Option HttpResponse)
    (i fuel f : Nat) (hf : fuel = f + 1)
    (hc : credsConfigured env.cfg = true)
    (hv : AzureTokenManager.valid st (env.now nIdx) = true)
    (ht : pyTruthyOptJson st.token = true)
    (r : HttpResponse) (hr : env.net nIdx = .ok r)
    (h2 : r.status = 200) (j : Json) (hj : r.json = some j) :
    reqLoop env m u p d fuel ⟨st, tIdx, nIdx⟩ lr i =
      (.ok (.success j), ⟨st, tIdx, nIdx + 1⟩, [Ev.httpCall m u p d]) := by
  subst hf
  simp [reqLoop, get_token_cached env.cfg st (env.now nIdx) _ hc hv, ht, hr, h2, hj]

/-- One unfolding of the retry loop on a 500 response under a cached
valid truthy token: one HTTP call, one backoff sleep of 2 to the power i,
then the loop continues with one unit of budget consumed. -/
theorem reqLoop_step_500 (env : Env) (m u : String) (p : Option (List (String × Json)))
    (d : Option Json) (st : TokenState) (tIdx nIdx : Nat) (lr : Option HttpResponse)
    (i fuel f : Nat) (hf : fuel = f + 1)
    (hc : credsConfigured env.cfg = true)
    (hv : AzureTokenManager.valid st (env.now nIdx) = true)
    (ht : pyTruthyOptJson st.token = true)
    (r : HttpResponse) (hr : env.net nIdx = .ok r) (h5 : r.status = 500) :
    reqLoop env m u p d fuel ⟨st, tIdx, nIdx⟩ lr i =
      ((reqLoop env m u p d f ⟨st, tIdx, nIdx + 1⟩ (some r) (i + 1)).1,
       (reqLoop env m u p d f ⟨st, tIdx, nIdx + 1⟩ (some r) (i + 1)).2.1,
       Ev.httpCall m u p d ::
         Ev.sleep (2 ^ i) :: (reqLoop env m u p d f ⟨st, tIdx, nIdx + 1⟩ (some r) (i + 1)).2.2) := by
  subst hf
  simp [reqLoop, get_token_cached env.cfg st (env.now nIdx) _ hc hv, ht, hr, h5]

/-- One unfolding of the retry loop on a 401 response under a cached
valid truthy token: one HTTP call, then exactly one invalidation (the
cached token is cleared, its expiry untouched) before the loop continues
with one unit of budget consumed. -/
theorem reqLoop_step_401 (env : Env) (m u : String) (p : Option (List (String × Json)))
    (d : Option Json) (st : TokenState) (tIdx nIdx : Nat) (lr : Option HttpResponse)
    (i fuel f : Nat) (hf : fuel = f + 1)
    (hc : credsConfigured env.cfg = true)
    (hv : AzureTokenManager.valid st (env.now nIdx) = true)
    (ht : pyTruthyOptJson st.token = true)
    (r : HttpResponse) (hr : env.net nIdx = .ok r) (h4 : r.status = 401) :
    reqLoop env m u p d fuel ⟨st, tIdx, nIdx⟩ lr i =
      ((reqLoop env m u p d f ⟨⟨none, st.expires⟩, tIdx, nIdx + 1⟩ (some r) (i + 1)).1,
       (reqLoop env m u p d f ⟨⟨none, st.expires⟩, tIdx, nIdx + 1⟩ (some r) (i + 1)).2.1,
       Ev.httpCall m u p d ::
         Ev.invalidate ::
           (reqLoop env m u p d f ⟨⟨none, st.expires⟩, tIdx, nIdx + 1⟩ (some r) (i + 1)).2.2) := by
  subst hf
  simp [reqLoop, get_token_cached env.cfg st (env.now nIdx) _ hc hv, ht, hr, h4]

/-- A run of the retry loop under a cached valid truthy token that sees n
consecutive 500 responses (n below the remaining budget) followed by a
200 with parseable JSON returns that body as a success, makes n + 1 HTTP
calls and sleeps 2 to the power of each attempt index in between. -/
theorem reqLoop_chain_500 (env : Env) (m u : String) (p : Option (List (String × Json)))
    (d : Option Json) (st : TokenState) (tIdx : Nat)
    (hc : credsConfigured env.cfg = true)
    (ht : pyTruthyOptJson st.token = true)
    (hv : ∀ k, AzureTokenManager.valid st (env.now k) = true) :
    ∀ n fuel base i0 lr, n < fuel →
      (∀ idx, idx < n → ∃ bb oj, env.net (base + idx) = .ok ⟨500, bb, oj⟩) →
      ∀ b j, env.net (base + n) = .ok ⟨200, b, some j⟩ →
      reqLoop env m u p d fuel ⟨st, tIdx, base⟩ lr i0 =
        (.ok (.success j), ⟨st, tIdx, base + n + 1⟩, chainTrace m u p d i0 n) := by
  intro n
  induction n with
  | zero =>
    intro fuel base i0 lr hlt _ b j hok
    obtain ⟨f, rfl⟩ : ∃ f, fuel = f + 1 := ⟨fuel - 1, by omega⟩
    rw [Nat.add_zero] at hok
    rw [reqLoop_step_200 env m u p d st tIdx base lr i0 (f + 1) f rfl hc (hv base) ht
      ⟨200, b, some j⟩ hok rfl j rfl]
    simp [chainTrace]
  | succ k ih =>
    intro fuel base i0 lr hlt h500 b j hok
    obtain ⟨f, rfl⟩ : ∃ f, fuel = f + 1 := ⟨fuel - 1, by omega⟩
    obtain ⟨bb, oj, h0⟩ := h500 0 (by omega)
    rw [Nat.add_zero] at h0
    rw [reqLoop_step_500 env m u p d st tIdx base lr i0 (f + 1) f rfl hc (hv base) ht
      ⟨500, bb, oj⟩ h0 rfl]
    have hok' : env.net (base + 1 + k) = .ok ⟨200, b, some j⟩ := by
      have e : base + 1 + k = base + (k + 1) := by omega
      rw [e]; exact hok
    have h500' : ∀ idx, idx < k → ∃ bb2 oj2, env.net (base + 1 + idx) = .ok ⟨500, bb2, oj2⟩ := by
      intro idx hidx
      obtain ⟨bb2, oj2, h⟩ := h500 (idx + 1) (by omega)
      have e : base + 1 + idx = base + (idx + 1) := by omega
      rw [e]; exact ⟨bb2, oj2, h⟩
    rw [ih f (base + 1) (i0 + 1) (some ⟨500, bb, oj⟩) (by omega) h500' b j hok']
    have e : base + 1 + k + 1 = base + (k + 1) + 1 := by omega
    rw [e]
    simp [chainTrace]

/-- When the cache is not valid and credentials are configured, the first
event of an iteration of the retry loop is the token-endpoint POST of the
fresh credential fetch. -/
theorem reqLoop_fetch_head (env : Env) (m u : String) (p : Option (List (String × Json)))
    (d : Option Json) (f : Nat) (w : World) (lr : Option HttpResponse) (i : Nat)
    (hc : credsConfigured env.cfg = true)
    (hnv : AzureTokenManager.valid w.tm (env.now w.netIdx) = false) :
    ((reqLoop env m u p d (f + 1) w lr i).2.2).head? = some Ev.tokenEndpointCall := by
  have hg : AzureTokenManager.get_token env.cfg w.tm (env.now w.netIdx) (env.tokenNet w.tokIdx) =
      ((AzureTokenManager.fetch env.cfg w.tm (env.now w.netIdx) (env.tokenNet w.tokIdx)).1,
       (AzureTokenManager.fetch env.cfg w.tm (env.now w.netIdx) (env.tokenNet w.tokIdx)).2,
       true) := by
    simp [AzureTokenManager.get_token, hc, hnv]
  simp only [reqLoop, hg]
  rcases hfe : AzureTokenManager.fetch env.cfg w.tm (env.now w.netIdx) (env.tokenNet w.tokIdx)
    with ⟨res, st'⟩
  rcases res with e2 | tok
  · simp
  · dsimp only
    by_cases htr : pyTruthyOptJson tok = false
    · simp [htr]
    · cases hn : env.net w.netIdx with
      | exn e3 => simp [htr, hn]
      | ok r =>
        rw [if_neg htr]
        dsimp only
        split
        · split
          · simp
          · split <;> simp
        · split
          · simp
          · split
            · simp
            · simp

/-- Every HTTP call the retry loop makes carries the method, URL, query
parameters and body of the logical request: retries re-issue the same
request descriptor. -/
theorem reqLoop_calls_fixed (env : Env) (m u : String) (p : Option (List (String × Json)))
    (d : Option Json) :
    ∀ fuel w lr i e, e ∈ (reqLoop env m u p d fuel w lr i).2.2 → e.isHttpCall = true →
      e = Ev.httpCall m u p d := by
  intro fuel
  induction fuel with
  | zero => intro w lr i e he hcall; simp [reqLoop] at he
  | succ f ih =>
    intro w lr i e he hcall
    simp only [reqLoop] at he
    rcases hg : AzureTokenManager.get_token env.cfg w.tm (env.now w.netIdx) (env.tokenNet w.tokIdx)
      with ⟨res, st2, fetched⟩
    rw [hg] at he
    have hfevs : ∀ x : Ev,
        x ∈ (bif fetched then [Ev.tokenEndpointCall] else ([] : List Ev)) →
        x = Ev.tokenEndpointCall := by
      cases fetched <;> simp
    rcases res with e2 | tok
    · dsimp only at he
      have := hfevs e he
      rw [this] at hcall
      simp [Ev.isHttpCall] at hcall
    · dsimp only at he
      by_cases htr : pyTruthyOptJson tok = false
      · rw [if_pos htr] at he
        dsimp only at he
        have := hfevs e he
        rw [this] at hcall
        simp [Ev.isHttpCall] at hcall
      · rw [if_neg htr] at he
        cases hn : env.net w.netIdx with
        | exn e3 =>
          rw [hn] at he
          dsimp only at he
          rcases List.mem_append.mp he with h1 | h2
          · have := hfevs e h1
            rw [this] at hcall
            simp [Ev.isHttpCall] at hcall
          · simpa using h2
        | ok r =>
          rw [hn] at he
          dsimp only at he
          split at he
          · split at he
            · rcases List.mem_append.mp he with h1 | h2
              · have := hfevs e h1
                rw [this] at hcall
                simp [Ev.isHttpCall] at hcall
              · simpa using h2
            · split at he <;>
              · rcases List.mem_append.mp he with h1 | h2
                · have := hfevs e h1
                  rw [this] at hcall
                  simp [Ev.isHttpCall] at hcall
                · simpa using h2
          · split at he
            · rcases List.mem_append.mp he with h1 | h2
              · rcases List.mem_append.mp h1 with h3 | h4
                · have := hfevs e h3
                  rw [this] at hcall
                  simp [Ev.isHttpCall] at hcall
                · simpa using h4
              · rcases List.mem_cons.mp h2 with h3 | h4
                · rw [h3] at hcall
                  simp [Ev.isHttpCall] at hcall
                · exact ih _ _ _ e h4 hcall
            · split at he
              · rcases List.mem_append.mp he with h1 | h2
                · rcases List.mem_append.mp h1 with h3 | h4
                  · have := hfevs e h3
                    rw [this] at hcall
                    simp [Ev.isHttpCall] at hcall
                  · simpa using h4
                · rcases List.mem_cons.mp h2 with h3 | h4
                  · rw [h3] at hcall
                    simp [Ev.isHttpCall] at hcall
                  · exact ih _ _ _ e h4 hcall
              · rcases List.mem_append.mp he with h1 | h2
                · have := hfevs e h1
                  rw [this] at hcall
                  simp [Ev.isHttpCall] at hcall
                · simpa using h2

/-- Under a benign token-endpoint response, get_token returns a value
(possibly None) and never raises. -/
theorem get_token_ok (cfg : AzureADConfig) (st : TokenState) (now : Int) (tnet : NetResult)
    (hb : benignTokenResp tnet) :
    exceptOk (AzureTokenManager.get_token cfg st now tnet).1 = true := by
  unfold AzureTokenManager.get_token
  by_cases hc : credsConfigured cfg
  · rw [hc]
    by_cases hv : AzureTokenManager.valid st now
    · simp [hv, exceptOk]
    · simp only [hv, Bool.not_true, Bool.false_eq_true, if_false, if_true]
      rcases tnet with r | e
      · simp only [benignTokenResp] at hb
        unfold AzureTokenManager.fetch
        by_cases h200 : r.status = 200
        · obtain ⟨fs, tok, hjson, htok, hexp⟩ := hb h200
          dsimp only
          rw [if_pos h200, hjson]
          rcases hexp with hnone | ⟨n, hsome⟩
          · simp [htok, AzureTokenManager.expiresInOf, hnone, exceptOk]
          · simp [htok, AzureTokenManager.expiresInOf, hsome, exceptOk]
        · simp [h200, exceptOk]
      · simp [benignTokenResp] at hb
  · simp [hc, exceptOk]

/-- When no HTTP call raises and the token endpoint behaves benignly, the
retry loop always returns an outcome value. -/
theorem reqLoop_ok (env : Env) (m u : String) (p : Option (List (String × Json)))
    (d : Option Json)
    (hbt : ∀ k, benignTokenResp (env.tokenNet k))
    (hnet : ∀ k, ∃ r, env.net k = .ok r) :
    ∀ fuel w lr i, exceptOk (reqLoop env m u p d fuel w lr i).1 = true := by
  intro fuel
  induction fuel with
  | zero => intro w lr i; simp [reqLoop, exceptOk]
  | succ f ih =>
    intro w lr i
    simp only [reqLoop]
    rcases hg : AzureTokenManager.get_token env.cfg w.tm (env.now w.netIdx) (env.tokenNet w.tokIdx)
      with ⟨res, st2, fetched⟩
    have hok := get_token_ok env.cfg w.tm (env.now w.netIdx) (env.tokenNet w.tokIdx) (hbt w.tokIdx)
    rw [hg] at hok
    rcases res with e2 | tok
    · simp [exceptOk] at hok
    · dsimp only
      by_cases htr : pyTruthyOptJson tok = false
      · simp [htr, exceptOk]
      · rw [if_neg htr]
        obtain ⟨r, hr⟩ := hnet w.netIdx
        rw [hr]
        dsimp only
        split
        · split
          · simp [exceptOk]
          · split <;> simp [exceptOk]
        · split
          · exact ih _ _ _
          · split
            · exact ih _ _ _
            · simp [exceptOk]

/-- An HTTP-call event adds one to the call count. -/
theorem callsOf_cons_call (m u : String) (p : Option (List (String × Json))) (d : Option Json)
    (l : List Ev) : callsOf (Ev.httpCall m u p d :: l) = callsOf l + 1 := rfl

/-- A sleep event does not change the call count. -/
theorem callsOf_cons_sleep (s : Nat) (l : List Ev) : callsOf (Ev.sleep s :: l) = callsOf l := rfl

/-- An HTTP-call event contributes no sleep duration. -/
theorem sleepsOf_cons_call (m u : String) (p : Option (List (String × Json))) (d : Option Json)
    (l : List Ev) : sleepsOf (Ev.httpCall m u p d :: l) = sleepsOf l := rfl

/-- A sleep event contributes its duration. -/
theorem sleepsOf_cons_sleep (s : Nat) (l : List Ev) :
    sleepsOf (Ev.sleep s :: l) = s :: sleepsOf l := rfl

/-- The backoff-then-success trace contains one call per failure plus the
final successful call. -/
theorem chainTrace_calls (m u : String) (p : Option (List (String × Json))) (d : Option Json) :
    ∀ n i0, callsOf (chainTrace m u p d i0 n) = n + 1 := by
  intro n
  induction n with
  | zero => intro i0; rfl
  | succ k ih =>
    intro i0
    simp only [chainTrace, callsOf_cons_call, callsOf_cons_sleep, ih]

/-- The backoff-then-success trace sleeps 2 to the power of each attempt
index. -/
theorem chainTrace_sleeps (m u : String) (p : Option (List (String × Json))) (d : Option Json) :
    ∀ n i0, sleepsOf (chainTrace m u p d i0 n) = (List.range n).map (fun k => 2 ^ (i0 + k)) := by
  intro n
  induction n with
  | zero => intro i0; rfl
  | succ k ih =>
    intro i0
    simp only [chainTrace, sleepsOf_cons_call, sleepsOf_cons_sleep, ih]
    rw [List.range_succ_eq_map]
    simp only [List.map_cons, List.map_map, Nat.add_zero]
    have he : ((fun k => 2 ^ (i0 + 1 + k)) : Nat → Nat) =
        (fun k => 2 ^ (i0 + k)) ∘ Nat.succ := by
      funext j
      simp only [Function.comp]
      congr 1
      omega
    rw [he]

/-! Claim C1. -/

/-- Claim C1, counterexample.  The claim says that up to three
consecutive 500 responses followed by a 200 end in Success with attempts
equal to failures plus one.  In the scenario with exactly three 500
responses followed by a 200, the budget of self.retries = 3 attempts is
exhausted before the 200 is ever requested: the executor returns None
(modelled as the exhausted outcome logging status 500 and the body
excerpt), not Success, after 3 calls and sleeps of 1, 2 and 4 seconds. -/
theorem C1_counterexample :
    (BusinessCentralClient.request env3x500 freshW "GET" "customers" none none false).1 =
        .ok (.exhausted 500 "oops")
  ∧ outcomeIsSuccess
      (BusinessCentralClient.request env3x500 freshW "GET" "customers" none none false).1 = false
  ∧ callsOf
      (BusinessCentralClient.request env3x500 freshW "GET" "customers" none none false).2.2 = 3
  ∧ sleepsOf
      (BusinessCentralClient.request env3x500 freshW "GET" "customers" none none false).2.2 =
      [1, 2, 4] :=
  ⟨rfl, rfl, rfl, rfl⟩

/-- Claim C1, amended: with a valid cached credential, for every sequence
of at most TWO consecutive HTTP 500 responses followed by a 200, _request
returns Success with the parsed body, the observed sleep durations are
2 to the power of the attempt index (1s then 2s), and the number of
attempts (HTTP calls) equals the number of 500 failures plus 1.  With
three consecutive 500s the budget of 3 attempts is exhausted before the
200 is reached. -/
theorem C1_backoff_success (env : Env) (st : TokenState)
    (hc : credsConfigured env.cfg = true)
    (ht : pyTruthyOptJson st.token = true)
    (hv : ∀ k, AzureTokenManager.valid st (env.now k) = true)
    (n : Nat) (hn : n ≤ 2)
    (h500 : ∀ idx, idx < n → ∃ bb oj, env.net idx = .ok ⟨500, bb, oj⟩)
    (b : String) (j : Json) (hok : env.net n = .ok ⟨200, b, some j⟩)
    (m u : String) (p : Option (List (String × Json))) (d : Option Json) (ful : Bool) :
    (BusinessCentralClient.request env ⟨st, 0, 0⟩ m u p d ful).1 = .ok (.success j)
  ∧ callsOf (BusinessCentralClient.request env ⟨st, 0, 0⟩ m u p d ful).2.2 = n + 1
  ∧ sleepsOf (BusinessCentralClient.request env ⟨st, 0, 0⟩ m u p d ful).2.2 =
      (List.range n).map (fun k => 2 ^ k) := by
  have hmain := reqLoop_chain_500 env m
    (bif ful then u else APIEndpointBuilder.build_standard_url env.base_url env.company_id u)
    p d st 0 hc ht hv n 3 0 0 none (by omega)
    (fun idx hidx => by simpa using h500 idx hidx) b j (by simpa using hok)
  simp only [BusinessCentralClient.request]
  rw [hmain]
  refine ⟨rfl, ?_, ?_⟩
  · exact chainTrace_calls _ _ _ _ n 0
  · rw [chainTrace_sleeps _ _ _ _ n 0]
    simp

/-- Witness for the amended claim C1 at two 500 responses followed by a
200. -/
theorem C1_witness :
    (BusinessCentralClient.request env2x500 ⟨⟨some (.str "tk"), some 1000⟩, 0, 0⟩
        "GET" "customers" none none false).1 = .ok (.success (.obj [("value", .arr [])]))
  ∧ callsOf (BusinessCentralClient.request env2x500 ⟨⟨some (.str "tk"), some 1000⟩, 0, 0⟩
        "GET" "customers" none none false).2.2 = 2 + 1
  ∧ sleepsOf (BusinessCentralClient.request env2x500 ⟨⟨some (.str "tk"), some 1000⟩, 0, 0⟩
        "GET" "customers" none none false).2.2 = (List.range 2).map (fun k => 2 ^ k) :=
  C1_backoff_success env2x500 ⟨some (.str "tk"), some 1000⟩ rfl rfl (fun _ => rfl)
    2 (by omega)
    (fun idx hidx => ⟨"oops", none, by simp [env2x500, env3x500, resp500, hidx]⟩)
    "{}" (.obj [("value", .arr [])]) rfl "GET" "customers" none none false

/-! Claim C2. -/

/-- Claim C2: with a valid cached credential and retry budget 3, three
consecutive 500 responses cause _request to return the terminal failure
path (a None return whose error log carries the last observed status, 500,
and the 200-character excerpt of the last body), with exactly 3 HTTP
calls made and backoff sleeps of 1, 2 and 4 seconds. -/
theorem C2_exhaustion_terminal (env : Env) (st : TokenState)
    (hc : credsConfigured env.cfg = true)
    (ht : pyTruthyOptJson st.token = true)
    (hv : ∀ k, AzureTokenManager.valid st (env.now k) = true)
    (r0 r1 r2 : HttpResponse)
    (h0 : env.net 0 = .ok r0) (h1 : env.net 1 = .ok r1) (h2 : env.net 2 = .ok r2)
    (hs0 : r0.status = 500) (hs1 : r1.status = 500) (hs2 : r2.status = 500)
    (m u : String) (p : Option (List (String × Json))) (d : Option Json) (ful : Bool) :
    (BusinessCentralClient.request env ⟨st, 0, 0⟩ m u p d ful).1 =
        .ok (.exhausted 500 (strTake200 r2.body))
  ∧ callsOf (BusinessCentralClient.request env ⟨st, 0, 0⟩ m u p d ful).2.2 = 3
  ∧ sleepsOf (BusinessCentralClient.request env ⟨st, 0, 0⟩ m u p d ful).2.2 = [1, 2, 4] := by
  simp only [BusinessCentralClient.request]
  rw [reqLoop_step_500 env m _ p d st 0 0 none 0 3 2 rfl hc (hv 0) ht r0 h0 hs0]
  rw [reqLoop_step_500 env m _ p d st 0 1 (some r0) 1 2 1 rfl hc (hv 1) ht r1 h1 hs1]
  rw [reqLoop_step_500 env m _ p d st 0 2 (some r1) 2 1 0 rfl hc (hv 2) ht r2 h2 hs2]
  simp [reqLoop, exhaustOutcome, hs2, callsOf, sleepsOf, Ev.isHttpCall, List.filter,
    List.filterMap]

/-- Witness for claim C2 in the all-500 scenario. -/
theorem C2_witness :
    (BusinessCentralClient.request env3x500 ⟨⟨some (.str "tk"), some 1000⟩, 0, 0⟩
        "GET" "customers" none none false).1 = .ok (.exhausted 500 (strTake200 "oops"))
  ∧ callsOf (BusinessCentralClient.request env3x500 ⟨⟨some (.str "tk"), some 1000⟩, 0, 0⟩
        "GET" "customers" none none false).2.2 = 3
  ∧ sleepsOf (BusinessCentralClient.request env3x500 ⟨⟨some (.str "tk"), some 1000⟩, 0, 0⟩
        "GET" "customers" none none false).2.2 = [1, 2, 4] :=
  C2_exhaustion_terminal env3x500 ⟨some (.str "tk"), some 1000⟩ rfl rfl (fun _ => rfl)
    resp500 resp500 resp500 rfl rfl rfl rfl rfl rfl
    "GET" "customers" none none false

/-! Claim C3. -/

/-- Claim C3, counterexample.  The claim says network exceptions are
caught: credential acquisition degrades to absent and _request always
returns an outcome.  In the code neither _fetch nor _request has a
try/except around its httpx call, so a connection timeout during the
token POST propagates out of get_token and out of _request, and a read
timeout during the API call propagates out of _request. -/
theorem C3_counterexample :
    (AzureTokenManager.get_token cfgFull ⟨none, none⟩ 0 (.exn "httpx.ConnectTimeout")).1 =
        .error "httpx.ConnectTimeout"
  ∧ (BusinessCentralClient.request envTokenExn ⟨⟨none, none⟩, 0, 0⟩
        "GET" "customers" none none false).1 = .error "httpx.ConnectTimeout"
  ∧ (BusinessCentralClient.request envNetExn ⟨⟨some (.str "tk"), some 1000⟩, 0, 0⟩
        "GET" "customers" none none false).1 = .error "httpx.ReadTimeout" :=
  ⟨rfl, rfl, rfl⟩

/-- Claim C3, amended: a non-200 token-endpoint response makes _fetch
return absent without raising; when the token endpoint behaves benignly
(no exception, well-formed 200 bodies) get_token returns a value, and
when additionally no API call raises, _request always returns an outcome
value.  HTTP-layer exceptions themselves are NOT caught: they propagate
out of _fetch (and hence get_token and _request). -/
theorem C3_amended_outcomes :
    (∀ cfg st now r, r.status ≠ 200 →
        AzureTokenManager.fetch cfg st now (.ok r) = (.ok none, st))
  ∧ (∀ cfg st now tnet, benignTokenResp tnet →
        exceptOk (AzureTokenManager.get_token cfg st now tnet).1 = true)
  ∧ (∀ env w m u p d ful, (∀ k, benignTokenResp (env.tokenNet k)) →
        (∀ k, ∃ r, env.net k = .ok r) →
        exceptOk (BusinessCentralClient.request env w m u p d ful).1 = true)
  ∧ (∀ cfg st now e, AzureTokenManager.fetch cfg st now (.exn e) = (.error e, st)) := by
  refine ⟨?_, ?_, ?_, ?_⟩
  · intro cfg st now r h
    simp [AzureTokenManager.fetch, h]
  · exact get_token_ok
  · intro env w m u p d ful hbt hnet
    exact reqLoop_ok env m _ p d hbt hnet 3 w none 0
  · intro cfg st now e
    rfl

/-- Witness for the amended claim C3 in the benign rejecting world. -/
theorem C3_witness :
    exceptOk (BusinessCentralClient.request envBenign ⟨⟨none, none⟩, 0, 0⟩
        "GET" "customers" none none false).1 = true :=
  C3_amended_outcomes.2.2.1 envBenign ⟨⟨none, none⟩, 0, 0⟩ "GET" "customers" none none false
    (fun k => by simp [envBenign, env3x500, benignTokenResp])
    (fun k => ⟨⟨404, "not found", none⟩, rfl⟩)

/-! Claim C4. -/

/-- Claim C4, evaluated on the code.  With the identity not fully
configured, get_token returns absent with no token-endpoint call, and
_request short-circuits to the noCredential outcome with zero HTTP calls
and zero token-endpoint calls; with a partially configured identity whose
tenant is present (so config.py still derives the base URL), every domain
operation degrades to an empty list or absent value.  But with NO tenant
configured, config.py leaves bc.base_url as None, and every custom-API
delivery operation then raises AttributeError inside build_custom_url
(None.split) instead of returning empty - the failing input of the code
bug. -/
theorem C4_offline_divergence :
    AzureTokenManager.get_token offCfg ⟨none, none⟩ 0 (.exn "unreachable") =
        (.ok none, ⟨none, none⟩, false)
  ∧ BusinessCentralClient.request offEnv ⟨⟨none, none⟩, 0, 0⟩ "GET" "customers" none none false =
        (.ok .noCredential, ⟨⟨none, none⟩, 0, 0⟩, [])
  ∧ callsOf (BusinessCentralClient.request offEnv ⟨⟨none, none⟩, 0, 0⟩
        "GET" "customers" none none false).2.2 = 0
  ∧ tokenCallsOf (BusinessCentralClient.request offEnv ⟨⟨none, none⟩, 0, 0⟩
        "GET" "customers" none none false).2.2 = 0
  ∧ (BusinessCentralClient.get_customers offEnv ⟨⟨none, none⟩, 0, 0⟩ 20).1 = .ok (.arr [])
  ∧ (BusinessCentralClient.get_customers partialEnv ⟨⟨none, none⟩, 0, 0⟩ 20).1 = .ok (.arr [])
  ∧ (BusinessCentralClient.get_customer partialEnv ⟨⟨none, none⟩, 0, 0⟩ "C001").1 = .ok none
  ∧ (BusinessCentralClient.get_customer_by_id partialEnv ⟨⟨none, none⟩, 0, 0⟩ "C001").1 =
        .ok none
  ∧ (BusinessCentralClient.get_items partialEnv ⟨⟨none, none⟩, 0, 0⟩ 20).1 = .ok (.arr [])
  ∧ (BusinessCentralClient.get_item_by_number partialEnv ⟨⟨none, none⟩, 0, 0⟩ "ABC").1 =
        .ok none
  ∧ (BusinessCentralClient.get_orders partialEnv ⟨⟨none, none⟩, 0, 0⟩ 10).1 = .ok (.arr [])
  ∧ (BusinessCentralClient.get_sales_orders partialEnv ⟨⟨none, none⟩, 0, 0⟩ "" 20).1 =
        .ok (.arr [])
  ∧ (BusinessCentralClient.create_customer partialEnv ⟨⟨none, none⟩, 0, 0⟩
        (.obj [("displayName", .str "X")])).1 = .ok none
  ∧ (BusinessCentralClient.get_currency_exchange_rates partialEnv ⟨⟨none, none⟩, 0, 0⟩
        (some "USD") 20).1 = .ok (.arr [])
  ∧ (BusinessCentralClient.get_deliveries partialEnv ⟨⟨none, none⟩, 0, 0⟩ none 20).1 =
        .ok (.arr [])
  ∧ (BusinessCentralClient.get_delivery partialEnv ⟨⟨none, none⟩, 0, 0⟩ "DEL-001").1 = .ok none
  ∧ (BusinessCentralClient.get_delivery partialEnv ⟨⟨none, none⟩, 0, 0⟩
        "3fa85f64-5717-4562-b3fc-2c963f66afa6").1 = .ok none
  ∧ (BusinessCentralClient.update_delivery_status partialEnv ⟨⟨none, none⟩, 0, 0⟩
        "DEL-001" "Delivered" "").1 = .ok none
  ∧ (BusinessCentralClient.get_delivery_routes partialEnv ⟨⟨none, none⟩, 0, 0⟩
        "2024-01-01" "2024-01-31" none).1 = .ok (.arr [])
  ∧ (BusinessCentralClient.optimize_route partialEnv ⟨⟨none, none⟩, 0, 0⟩ (.obj [])).1 =
        .ok none
  ∧ (BusinessCentralClient.get_inventory_status partialEnv ⟨⟨none, none⟩, 0, 0⟩ none).1 =
        .ok (.arr [])
  ∧ (BusinessCentralClient.get_deliveries offEnv ⟨⟨none, none⟩, 0, 0⟩ none 20).1 =
        .error "AttributeError"
  ∧ (BusinessCentralClient.get_delivery offEnv ⟨⟨none, none⟩, 0, 0⟩ "DEL-001").1 =
        .error "AttributeError" :=
  ⟨rfl, rfl, rfl, rfl, rfl, rfl, rfl, rfl, rfl, rfl, rfl, rfl, rfl, rfl, rfl, rfl, rfl, rfl,
    rfl, rfl, rfl, rfl, rfl⟩

/-! Claim C5. -/

/-- Claim C5: _valid reports the credential valid exactly when the token
and expiry are present and the current time is strictly before the
expiry; _fetch sets the expiry at acquisition time to now plus expires_in
(3600 when the response omits it); hence a credential fetched with
expires_in 3600 at time T is valid at T plus 3599 and invalid at T plus
3601. -/
theorem C5_validity_window :
    (∀ st now, AzureTokenManager.valid st now = true ↔
        ∃ t, st.token = some t ∧ ∃ e, st.expires = some e ∧ now < e)
  ∧ (∀ cfg st T b fs tok n, dictGet? fs "access_token" = some tok →
        dictGet? fs "expires_in" = some (.num n) →
        AzureTokenManager.fetch cfg st T (.ok ⟨200, b, some (.obj fs)⟩) =
          (.ok (some tok), ⟨some tok, some (T + n)⟩))
  ∧ (∀ cfg st T b fs tok, dictGet? fs "access_token" = some tok →
        dictGet? fs "expires_in" = none →
        AzureTokenManager.fetch cfg st T (.ok ⟨200, b, some (.obj fs)⟩) =
          (.ok (some tok), ⟨some tok, some (T + 3600)⟩))
  ∧ (∀ cfg st T b fs tok, dictGet? fs "access_token" = some tok →
        dictGet? fs "expires_in" = some (.num 3600) →
        AzureTokenManager.valid
            (AzureTokenManager.fetch cfg st T (.ok ⟨200, b, some (.obj fs)⟩)).2 (T + 3599) = true
          ∧ AzureTokenManager.valid
              (AzureTokenManager.fetch cfg st T (.ok ⟨200, b, some (.obj fs)⟩)).2 (T + 3601) =
              false) := by
  refine ⟨?_, ?_, ?_, ?_⟩
  · intro st now
    rcases st with ⟨tok, exp⟩
    rcases tok with _ | t <;> rcases exp with _ | e <;>
      simp [AzureTokenManager.valid]
  · intro cfg st T b fs tok n htok hexp
    simp [AzureTokenManager.fetch, AzureTokenManager.expiresInOf, htok, hexp]
  · intro cfg st T b fs tok htok hexp
    simp [AzureTokenManager.fetch, AzureTokenManager.expiresInOf, htok, hexp]
  · intro cfg st T b fs tok htok hexp
    constructor
    · simp [AzureTokenManager.fetch, AzureTokenManager.expiresInOf, htok, hexp,
        AzureTokenManager.valid]
    · simp [AzureTokenManager.fetch, AzureTokenManager.expiresInOf, htok, hexp,
        AzureTokenManager.valid]

/-- Witness for claim C5 at a concrete fetch at time 0. -/
theorem C5_witness :
    AzureTokenManager.valid
        (AzureTokenManager.fetch offCfg ⟨none, none⟩ 0
          (.ok ⟨200, "", some (.obj [("access_token", .str "tk"), ("expires_in", .num 3600)])⟩)).2
        ((0 : Int) + 3599) = true
  ∧ AzureTokenManager.valid
        (AzureTokenManager.fetch offCfg ⟨none, none⟩ 0
          (.ok ⟨200, "", some (.obj [("access_token", .str "tk"), ("expires_in", .num 3600)])⟩)).2
        ((0 : Int) + 3601) = false :=
  C5_validity_window.2.2.2 offCfg ⟨none, none⟩ 0 ""
    [("access_token", .str "tk"), ("expires_in", .num 3600)] (.str "tk") rfl rfl

/-! Claim C6. -/

/-- Claim C6: build_custom_url truncates the base URL at the first
occurrence of the standard version segment and, for company-scoped calls,
appends api, the custom coordinates and the company segment; at the base
URL of the claim (whose earlier segment v2.0 does not match the full
separator) it yields exactly the expected custom URL. -/
theorem C6_custom_url (base comp pub grp ver ep : String) :
    APIEndpointBuilder.build_custom_url (some base) (some comp) pub grp ver ep true =
        .ok (APIEndpointBuilder.baseWithoutVersion base ++ "/api/" ++ pub ++ "/" ++ grp ++ "/"
          ++ ver ++ "/companies(" ++ comp ++ ")/" ++ ep)
  ∧ APIEndpointBuilder.build_custom_url (some "https://x/v2.0/T/prod/api/v2.0") (some "C")
        "acme" "g" "v1" "things" true =
      .ok "https://x/v2.0/T/prod/api/acme/g/v1/companies(C)/things"
  ∧ APIEndpointBuilder.baseWithoutVersion "https://x/v2.0/T/prod/api/v2.0" =
      "https://x/v2.0/T/prod" :=
  ⟨rfl, rfl, rfl⟩

/-! Claim C7. -/

/-- Claim C7: for a GUID-shaped delivery id (length greater than 20 and
containing a hyphen) get_delivery issues a single direct keyed GET to
deliveries with the key interpolated UNQUOTED and no query parameters, and
passes the response body through; for every other id it instead issues a
filtered list GET whose filter is no eq the quoted id with top 1,
returning the first element of the response value array or absent. -/
theorem C7_delivery_lookup (env : Env) (B C : String) (st : TokenState)
    (hB : env.base_url = some B) (hC : env.company_id = some C)
    (hc : credsConfigured env.cfg = true)
    (ht : pyTruthyOptJson st.token = true)
    (hv : ∀ k, AzureTokenManager.valid st (env.now k) = true)
    (did : String) (b : String) :
    (∀ j, isGuidLike did = true →
        env.net 0 = .ok ⟨200, b, some j⟩ →
        BusinessCentralClient.get_delivery env ⟨st, 0, 0⟩ did =
          (.ok (some j), ⟨st, 0, 1⟩,
           [Ev.httpCall "GET"
              (APIEndpointBuilder.baseWithoutVersion B ++ "/api/" ++ "techSphereDynamics"
                ++ "/" ++ "delivery" ++ "/" ++ "v1.0" ++ "/companies(" ++ C ++ ")/"
                ++ ("deliveries(" ++ did ++ ")"))
              none none]))
  ∧ (∀ xs, isGuidLike did = false →
        env.net 0 = .ok ⟨200, b, some (.obj [("value", .arr xs)])⟩ →
        BusinessCentralClient.get_delivery env ⟨st, 0, 0⟩ did =
          (.ok xs.head?, ⟨st, 0, 1⟩,
           [Ev.httpCall "GET"
              (APIEndpointBuilder.baseWithoutVersion B ++ "/api/" ++ "techSphereDynamics"
                ++ "/" ++ "delivery" ++ "/" ++ "v1.0" ++ "/companies(" ++ C ++ ")/"
                ++ "deliveries")
              (some [("$filter", .str ("no eq \x27" ++ did ++ "\x27")), ("$top", .num 1)])
              none])) := by
  constructor
  · intro j hg hnet
    simp only [BusinessCentralClient.get_delivery, hg, if_true, hB, hC,
      APIEndpointBuilder.build_custom_url, pyStrOpt]
    simp only [BusinessCentralClient.request, Bool.cond_true]
    rw [reqLoop_step_200 env "GET" _ none none st 0 0 none 0 3 2 rfl hc (hv 0) ht
      ⟨200, b, some j⟩ hnet rfl j rfl]
    simp [Outcome.toPy]
  · intro xs hg hnet
    simp only [BusinessCentralClient.get_delivery, hg, Bool.false_eq_true, if_false, if_true,
      hB, hC, APIEndpointBuilder.build_custom_url, pyStrOpt]
    simp only [BusinessCentralClient.request, Bool.cond_true]
    rw [reqLoop_step_200 env "GET" _ _ none st 0 0 none 0 3 2 rfl hc (hv 0) ht
      ⟨200, b, some (.obj [("value", .arr xs)])⟩ hnet rfl _ rfl]
    cases xs with
    | nil =>
      simp [Outcome.toPy, firstOfValue, jsonTruthy, pyContains, pySubscriptStr, dictGet?,
        pyIndexZero]
    | cons x rest =>
      simp [Outcome.toPy, firstOfValue, jsonTruthy, pyContains, pySubscriptStr, dictGet?,
        pyIndexZero]

/-- Witness for claim C7: the GUID-shaped id takes the direct unquoted
keyed path and the short id DEL-001 takes the filtered path. -/
theorem C7_witness :
    BusinessCentralClient.get_delivery envVal
        ⟨⟨some (.str "tk"), some 1000⟩, 0, 0⟩ "3fa85f64-5717-4562-b3fc-2c963f66afa6" =
      (.ok (some (.obj [("value", .arr [Json.str "D1"])])),
       ⟨⟨some (.str "tk"), some 1000⟩, 0, 1⟩,
       [Ev.httpCall "GET"
          (APIEndpointBuilder.baseWithoutVersion "https://x/v2.0/T/prod/api/v2.0" ++ "/api/"
            ++ "techSphereDynamics" ++ "/" ++ "delivery" ++ "/" ++ "v1.0" ++ "/companies("
            ++ "C" ++ ")/"
            ++ ("deliveries(" ++ "3fa85f64-5717-4562-b3fc-2c963f66afa6" ++ ")"))
          none none])
  ∧ BusinessCentralClient.get_delivery envVal
        ⟨⟨some (.str "tk"), some 1000⟩, 0, 0⟩ "DEL-001" =
      (.ok ([Json.str "D1"].head?), ⟨⟨some (.str "tk"), some 1000⟩, 0, 1⟩,
       [Ev.httpCall "GET"
          (APIEndpointBuilder.baseWithoutVersion "https://x/v2.0/T/prod/api/v2.0" ++ "/api/"
            ++ "techSphereDynamics" ++ "/" ++ "delivery" ++ "/" ++ "v1.0" ++ "/companies("
            ++ "C" ++ ")/" ++ "deliveries")
          (some [("$filter", .str ("no eq \x27" ++ "DEL-001" ++ "\x27")), ("$top", .num 1)])
          none]) :=
  ⟨(C7_delivery_lookup envVal "https://x/v2.0/T/prod/api/v2.0" "C"
      ⟨some (.str "tk"), some 1000⟩ rfl rfl rfl rfl (fun _ => rfl)
      "3fa85f64-5717-4562-b3fc-2c963f66afa6" "{}").1
    (.obj [("value", .arr [Json.str "D1"])]) rfl rfl,
   (C7_delivery_lookup envVal "https://x/v2.0/T/prod/api/v2.0" "C"
      ⟨some (.str "tk"), some 1000⟩ rfl rfl rfl rfl (fun _ => rfl)
      "DEL-001" "{}").2 [Json.str "D1"] rfl rfl⟩

/-! Claim C8. -/

/-- Claim C8, counterexample.  For filters status Delivered and date_from
2024-01-01, the code merges the date clause into the existing status
clause INSIDE parentheses, producing status eq Delivered and
parenthesised deliveryDate ge 2024-01-01 - not the unparenthesised string
the claim asserts. -/
theorem C8_counterexample :
    dictGet? (deliveriesParams
        (some { customer_id := none, status := some "Delivered",
                date_from := some "2024-01-01", date_to := none }) 20) "$filter" =
      some (.str "status eq \x27Delivered\x27 and (deliveryDate ge 2024-01-01)")
  ∧ ("status eq \x27Delivered\x27 and (deliveryDate ge 2024-01-01)" : String) ≠
      "status eq \x27Delivered\x27 and deliveryDate ge 2024-01-01" :=
  ⟨rfl, by decide⟩

/-- Claim C8, amended: get_deliveries with filters status Delivered and
date_from 2024-01-01 issues its request with the filter parameter exactly
status eq Delivered and, in parentheses, deliveryDate ge 2024-01-01 (the
date clause group is parenthesised when merged after an existing clause),
together with the top parameter. -/
theorem C8_filter_string (env : Env) (B C : String) (st : TokenState)
    (hB : env.base_url = some B) (hC : env.company_id = some C)
    (hc : credsConfigured env.cfg = true)
    (ht : pyTruthyOptJson st.token = true)
    (hv : ∀ k, AzureTokenManager.valid st (env.now k) = true)
    (b : String) (xs : List Json)
    (hnet : env.net 0 = .ok ⟨200, b, some (.obj [("value", .arr xs)])⟩) :
    BusinessCentralClient.get_deliveries env ⟨st, 0, 0⟩
        (some { customer_id := none, status := some "Delivered",
                date_from := some "2024-01-01", date_to := none }) 20 =
      (.ok (.arr xs), ⟨st, 0, 1⟩,
       [Ev.httpCall "GET"
          (APIEndpointBuilder.baseWithoutVersion B ++ "/api/" ++ "techSphereDynamics"
            ++ "/" ++ "delivery" ++ "/" ++ "v1.0" ++ "/companies(" ++ C ++ ")/" ++ "deliveries")
          (some [("$top", .num 20),
                 ("$filter", .str "status eq \x27Delivered\x27 and (deliveryDate ge 2024-01-01)")])
          none]) := by
  have hp : deliveriesParams
      (some { customer_id := none, status := some "Delivered",
              date_from := some "2024-01-01", date_to := none }) 20 =
      [("$top", .num 20),
       ("$filter", .str "status eq \x27Delivered\x27 and (deliveryDate ge 2024-01-01)")] := rfl
  simp only [BusinessCentralClient.get_deliveries, hp, hB, hC,
    APIEndpointBuilder.build_custom_url, pyStrOpt, if_true]
  simp only [BusinessCentralClient.request, Bool.cond_true]
  rw [reqLoop_step_200 env "GET" _ _ none st 0 0 none 0 3 2 rfl hc (hv 0) ht
    ⟨200, b, some (.obj [("value", .arr xs)])⟩ hnet rfl _ rfl]
  simp [Outcome.toPy, valueOrEmptyList, jsonTruthy, dictGet?]

/-- Witness for the amended claim C8. -/
theorem C8_witness :
    BusinessCentralClient.get_deliveries envVal ⟨⟨some (.str "tk"), some 1000⟩, 0, 0⟩
        (some { customer_id := none, status := some "Delivered",
                date_from := some "2024-01-01", date_to := none }) 20 =
      (.ok (.arr [Json.str "D1"]), ⟨⟨some (.str "tk"), some 1000⟩, 0, 1⟩,
       [Ev.httpCall "GET"
          (APIEndpointBuilder.baseWithoutVersion "https://x/v2.0/T/prod/api/v2.0" ++ "/api/"
            ++ "techSphereDynamics" ++ "/" ++ "delivery" ++ "/" ++ "v1.0" ++ "/companies("
            ++ "C" ++ ")/" ++ "deliveries")
          (some [("$top", .num 20),
                 ("$filter", .str "status eq \x27Delivered\x27 and (deliveryDate ge 2024-01-01)")])
          none]) :=
  C8_filter_string envVal "https://x/v2.0/T/prod/api/v2.0" "C"
    ⟨some (.str "tk"), some 1000⟩ rfl rfl rfl rfl (fun _ => rfl) "{}" [Json.str "D1"] rfl

/-! Claim C9. -/

/-- Claim C9: in every execution of the retry loop under a valid cached
credential, a 401 response is followed by exactly one invalidation event
(clearing the stored token while keeping the expiry) before the loop
continues, the 401 attempt consumes exactly one unit of the retry budget,
and when budget remains the first event of the continuation is the
credential fetch of the next attempt at the token endpoint. -/
theorem C9_invalidate_once (env : Env) (m u : String) (p : Option (List (String × Json)))
    (d : Option Json) (st : TokenState) (tIdx nIdx : Nat) (lr : Option HttpResponse)
    (i fuel : Nat)
    (hc : credsConfigured env.cfg = true)
    (hv : AzureTokenManager.valid st (env.now nIdx) = true)
    (ht : pyTruthyOptJson st.token = true)
    (r : HttpResponse) (hr : env.net nIdx = .ok r) (h4 : r.status = 401) :
    reqLoop env m u p d (fuel + 1) ⟨st, tIdx, nIdx⟩ lr i =
      ((reqLoop env m u p d fuel ⟨⟨none, st.expires⟩, tIdx, nIdx + 1⟩ (some r) (i + 1)).1,
       (reqLoop env m u p d fuel ⟨⟨none, st.expires⟩, tIdx, nIdx + 1⟩ (some r) (i + 1)).2.1,
       Ev.httpCall m u p d ::
         Ev.invalidate ::
           (reqLoop env m u p d fuel ⟨⟨none, st.expires⟩, tIdx, nIdx + 1⟩ (some r) (i + 1)).2.2)
  ∧ (0 < fuel →
      ((reqLoop env m u p d fuel ⟨⟨none, st.expires⟩, tIdx, nIdx + 1⟩
          (some r) (i + 1)).2.2).head? = some Ev.tokenEndpointCall) := by
  constructor
  · exact reqLoop_step_401 env m u p d st tIdx nIdx lr i (fuel + 1) fuel rfl hc hv ht r hr h4
  · intro hf
    obtain ⟨f, rfl⟩ : ∃ f, fuel = f + 1 := ⟨fuel - 1, by omega⟩
    exact reqLoop_fetch_head env m u p d f ⟨⟨none, st.expires⟩, tIdx, nIdx + 1⟩ (some r) (i + 1)
      hc rfl

/-- Witness for claim C9 at the 401-then-refetch scenario with one unit
of budget remaining. -/
theorem C9_witness :
    reqLoop env401 "GET" "u" none none (1 + 1) ⟨⟨some (.str "tk"), some 1000⟩, 0, 0⟩ none 0 =
      ((reqLoop env401 "GET" "u" none none 1 ⟨⟨none, some 1000⟩, 0, 0 + 1⟩
          (some ⟨401, "unauthorized", none⟩) (0 + 1)).1,
       (reqLoop env401 "GET" "u" none none 1 ⟨⟨none, some 1000⟩, 0, 0 + 1⟩
          (some ⟨401, "unauthorized", none⟩) (0 + 1)).2.1,
       Ev.httpCall "GET" "u" none none ::
         Ev.invalidate ::
           (reqLoop env401 "GET" "u" none none 1 ⟨⟨none, some 1000⟩, 0, 0 + 1⟩
              (some ⟨401, "unauthorized", none⟩) (0 + 1)).2.2)
  ∧ (0 < 1 →
      ((reqLoop env401 "GET" "u" none none 1 ⟨⟨none, some 1000⟩, 0, 0 + 1⟩
          (some ⟨401, "unauthorized", none⟩) (0 + 1)).2.2).head? =
        some Ev.tokenEndpointCall) :=
  C9_invalidate_once env401 "GET" "u" none none ⟨some (.str "tk"), some 1000⟩ 0 0 none 0 1
    rfl rfl rfl ⟨401, "unauthorized", none⟩ rfl rfl

/-! Claim C10. -/

/-- Claim C10: for every delivery id, status and notes, every HTTP call
update_delivery_status issues is a PATCH to the URL whose key segment
wraps the id in single quotes, carrying the status payload; and that URL
is never the unquoted direct-access form that get_delivery uses for
GUID-shaped identifiers (the two URLs always differ). -/
theorem C10_patch_quoted (env : Env) (w : World) (B C : String)
    (hB : env.base_url = some B) (hC : env.company_id = some C)
    (did status notes : String) (qu uu : String)
    (hqu : APIEndpointBuilder.build_custom_url (some B) (some C) "techSphereDynamics" "delivery"
        "v1.0" ("deliveries(\x27" ++ did ++ "\x27)") true = .ok qu)
    (huu : APIEndpointBuilder.build_custom_url (some B) (some C) "techSphereDynamics" "delivery"
        "v1.0" ("deliveries(" ++ did ++ ")") true = .ok uu) :
    (∀ e, e ∈ (BusinessCentralClient.update_delivery_status env w did status notes).2.2 →
        e.isHttpCall = true →
        e = Ev.httpCall "PATCH" qu none
          (some (.obj (BusinessCentralClient.updateDeliveryData status notes))))
  ∧ qu ≠ uu := by
  constructor
  · intro e he hcall
    simp only [BusinessCentralClient.update_delivery_status, hB, hC] at he
    rw [hqu] at he
    dsimp only at he
    rcases hreq : BusinessCentralClient.request env w "PATCH" qu none
        (some (.obj (BusinessCentralClient.updateDeliveryData status notes))) true
      with ⟨res, w', evs⟩
    rw [hreq] at he
    have hevs : e ∈ evs := by
      rcases res with e2 | oc <;> simpa using he
    have htr : evs = (reqLoop env "PATCH" qu none
        (some (.obj (BusinessCentralClient.updateDeliveryData status notes))) 3 w none 0).2.2 := by
      have h2 := congrArg (fun t => t.2.2) hreq
      simp only [BusinessCentralClient.request, Bool.cond_true] at h2
      exact h2.symm
    rw [htr] at hevs
    exact reqLoop_calls_fixed env "PATCH" qu none _ 3 w none 0 e hevs hcall
  · intro hEq
    have e1 : APIEndpointBuilder.baseWithoutVersion B ++ "/api/" ++ "techSphereDynamics"
        ++ "/" ++ "delivery" ++ "/" ++ "v1.0" ++ "/companies(" ++ C ++ ")/"
        ++ ("deliveries(\x27" ++ did ++ "\x27)") = qu := Except.ok.inj hqu
    have e2 : APIEndpointBuilder.baseWithoutVersion B ++ "/api/" ++ "techSphereDynamics"
        ++ "/" ++ "delivery" ++ "/" ++ "v1.0" ++ "/companies(" ++ C ++ ")/"
        ++ ("deliveries(" ++ did ++ ")") = uu := Except.ok.inj huu
    have hbig := (e1.trans hEq).trans e2.symm
    have hlen := congrArg String.length hbig
    simp only [String.length_append] at hlen
    have l1 : ("deliveries(\x27" : String).length = 12 := rfl
    have l2 : ("\x27)" : String).length = 2 := rfl
    have l3 : ("deliveries(" : String).length = 11 := rfl
    have l4 : (")" : String).length = 1 := rfl
    omega

/-- Witness for claim C10: the single PATCH of a successful update goes
to the quoted-key URL, which differs from the unquoted form. -/
theorem C10_witness :
    ((BusinessCentralClient.update_delivery_status envVal ⟨⟨some (.str "tk"), some 1000⟩, 0, 0⟩
          "DEL-001" "Delivered" "").2.2).head? =
        some (Ev.httpCall "PATCH"
          "https://x/v2.0/T/prod/api/techSphereDynamics/delivery/v1.0/companies(C)/deliveries(\x27DEL-001\x27)"
          none
          (some (.obj (BusinessCentralClient.updateDeliveryData "Delivered" ""))))
  ∧ ("https://x/v2.0/T/prod/api/techSphereDynamics/delivery/v1.0/companies(C)/deliveries(\x27DEL-001\x27)"
      : String) ≠
      "https://x/v2.0/T/prod/api/techSphereDynamics/delivery/v1.0/companies(C)/deliveries(DEL-001)" :=
  ⟨rfl,
   (C10_patch_quoted envVal ⟨⟨some (.str "tk"), some 1000⟩, 0, 0⟩
      "https://x/v2.0/T/prod/api/v2.0" "C" rfl rfl "DEL-001" "Delivered" ""
      "https://x/v2.0/T/prod/api/techSphereDynamics/delivery/v1.0/companies(C)/deliveries(\x27DEL-001\x27)"
      "https://x/v2.0/T/prod/api/techSphereDynamics/delivery/v1.0/companies(C)/deliveries(DEL-001)"
      rfl rfl).2⟩

end BCWorkshop
